import Mathlib

/-!
Verification of the tezkorbetabot repository: a shallow embedding of the two
bot variants, `main.py` and `main_bot_code.py`, and proofs about the claims
of the specification.

The embedding translates each handler into a pure Lean function.  External
collaborators are passed in explicitly:

* the chat transport's membership lookup becomes a value of
  `Except String String` (an error, or the returned status string);
* the completion service becomes a value of `Except String String`;
* per-recipient delivery success of `bot.send_message` becomes an
  environment `Nat → Bool` (recipient id to success);
* `random.choice(seq)` becomes indexing by `rng % seq.length` for an
  arbitrary `rng : Nat`;
* the SQLite tables become lists of records, and each SQL statement is
  translated to the corresponding list operation.
-/

set_option maxHeartbeats 1000000

/-! ## Literal strings of the source (apostrophes written as ') -/

def memberS : String := "member"

def administratorS : String := "administrator"

def creatorS : String := "creator"

def pendingS : String := "pending"

def approvedS : String := "approved"

def rejectedS : String := "rejected"

def yordamS : String := "Yordam"

def bizHaqimizdaS : String := "Biz haqimizda"

def kanalS : String := "Kanal"

def guruhS : String := "Guruh"

def vebSaytS : String := "Veb sayt"

def kanalPrefixS : String := "Kanal: "

def guruhPrefixS : String := "Guruh: "

def vebPrefixS : String := "Veb sayt: "

def tmeS : String := "https://t.me/"

def helpTextS : String :=
  "\n    Bot buyruqlari:\n    /start - Botni boshlash\n    /stop - Botni to'xtatish\n    /help - Yordam\n    /ai - Sun'iy intellekt bilan suhbat\n    /about - Biz haqimizda\n    Motivatsiya yuborish uchun oddiy xabar sifatida yozing.\n    "

def aboutTextS : String :=
  "Bizning loyiha haqida: Bu Telegram bot foydalanuvchilarga motivatsiya, yangiliklar va AI bilan suhbat imkonini beradi."

def xatoPrefixS : String := "Xato yuz berdi: "

def submittedMsgS : String := "Motivatsiyangiz adminga yuborildi. Tasdiqlanishini kuting."

def newMotivPrefixS : String := "Yangi motivatsiya:\n"

def senderPrefixS : String := "\nYuboruvchi: @"

def adminOnlyS : String := "Bu buyruq faqat adminlar uchun."

def usageS : String := "Xabar yuborish uchun matn kiriting: /broadcast Xabar matni"

def broadcastDoneS : String := "Xabar barcha foydalanuvchilarga yuborildi."

def stopMsgS : String := "Bot to'xtatildi. Qayta boshlash uchun /start buyrug'ini yuboring."

def aiJoinPromptS : String := "AI bilan suhbatlashish uchun kanal va guruhga a'zo bo'ling:"

def aiStartS : String := "Gemini AI bilan suhbat boshlandi. Savolingizni yozing:"

def motivRejectedS : String := "Motivatsiya bekor qilindi."

def timedeltaS : String := "timedelta"

def datetimeS : String := "datetime"

def noneSubS : String := "NoneType object is not subscriptable"

def sendDailyNameS : String := "send_daily_motivation"

def missingArgS : String := "missing 1 required positional argument: context"

def joinPromptBotS : String := "Botdan foydalanish uchun quyidagi kanal va guruhga a'zo bo'ling:"

def genericErrS : String := "Xatolik yuz berdi. Iltimos, keyinroq qayta urinib ko'ring."

def cantRemoveSelfS : String := "Siz o'zingizni adminlikdan olib tashlay olmaysiz."

def cantRemoveMainS : String := "Asosiy adminlarni olib tashlab bo'lmaydi."

def siteVisitS : String := "Saytimizga tashrif buyuring:"

def stopBotS : String := "Bot to'xtatildi. Qayta ishlash uchun /start buyrug'ini yuboring."

def finishedS : String := "Xabar yuborish yakunlandi.\n✅ Yuborildi: "

def errorPartS : String := "\n❌ Xatolik: "

def removedMsg (t : String) : String := "Foydalanuvchi (ID: " ++ t ++ ") adminlikdan olindi."

/-- Labels skipped inside `process_message` of main_bot_code.py. -/
def adminLabels : List String :=
  ["👑 Admin paneli", "📊 Admin statistikasi", "👤 Admin qo'shish",
   "🚫 Adminlikdan olish", "📝 Barcha foydalanuvchilarga xabar",
   "👥 Oddiy foydalanuvchi rejimi", "🔗 Saytga o'tish"]

/-! ## Membership gate (main.py `check_membership`, main_bot_code.py `check_subscription`) -/

/-- The active status set of both gates: `['member', 'administrator', 'creator']`. -/
def activeStatuses : List String := [memberS, administratorS, creatorS]

/-- Outcome of one `get_chat_member` call: transport error, or a status string. -/
abbrev LookupResult := Except String String

/-- main.py lines 50-58.  The channel lookup runs first; any raised transport
error from either lookup is caught by the surrounding try/except and turned
into `false`, so the function is total and never propagates an exception. -/
def check_membership (channel_status group_status : LookupResult) : Bool :=
  match channel_status with
  | Except.error _ => false
  | Except.ok cs =>
    match group_status with
    | Except.error _ => false
    | Except.ok gs => activeStatuses.contains cs && activeStatuses.contains gs

/-- main_bot_code.py lines 79-91, the same gate of the second variant. -/
def check_subscription (channel_status group_status : LookupResult) : Bool :=
  match channel_status with
  | Except.error _ => false
  | Except.ok cs =>
    match group_status with
    | Except.error _ => false
    | Except.ok gs => activeStatuses.contains cs && activeStatuses.contains gs

/-- Modelled from the spec wording of the membership-gate contract: true only
when both lookups succeed and both returned statuses are in the active set;
false in every other case.  Used to compare the source gates against the
claim. -/
def is_member_spec (channel_status group_status : LookupResult) : Bool :=
  match channel_status, group_status with
  | Except.ok cs, Except.ok gs => activeStatuses.contains cs && activeStatuses.contains gs
  | _, _ => false

/-! ## Data model of main.py (bot.db) -/

structure MUser where
  user_id : Nat
  username : String
  is_active : Bool
deriving DecidableEq

structure Motivation where
  id : Nat
  text : String
  submitted_by : Nat
  status : String
  schedule_date : Option String
deriving DecidableEq

structure DB where
  users : List MUser
  motivations : List Motivation
deriving DecidableEq

/-- Reply markups sent with messages, abstracted from the source keyboards. -/
inductive Markup
  | none
  | mainKeyboard
  | membershipKeyboard
  | subscriptionKeyboard
  | moderation (mid : Nat)
  | siteButton
deriving DecidableEq

structure Reply where
  text : String
  markup : Markup
deriving DecidableEq

structure MainConfig where
  channel_id : String
  group_id : String
  website_url : String
deriving DecidableEq

/-- Per-call context of `handle_message`: the `ai_mode` flag from
`context.user_data` and the outcome of `model.generate_content`. -/
structure MsgCtx where
  ai_mode : Bool
  gen : Except String String

structure HandleOut where
  db : DB
  replies : List Reply
  adminNotices : List Reply
  ai_mode : Bool
deriving DecidableEq

/-- `c.lastrowid` after the INSERT into the AUTOINCREMENT table. -/
def nextMotivationId (db : DB) : Nat :=
  (db.motivations.map Motivation.id).foldr Nat.max 0 + 1

/-- main.py lines 138-188.  Menu labels first, then the AI-relay branch, then
the motivation submission.  Note that the source contains no call to
`check_membership` anywhere in this handler, so the embedding takes no
membership input: the handler behaves identically for members and
non-members. -/
def handle_message (cfg : MainConfig) (st : MsgCtx) (db : DB)
    (user_id : Nat) (username : String) (text : String) : HandleOut :=
  if text = yordamS then
    { db := db, replies := [{ text := helpTextS, markup := Markup.mainKeyboard }],
      adminNotices := [], ai_mode := st.ai_mode }
  else if text = bizHaqimizdaS then
    { db := db, replies := [{ text := aboutTextS, markup := Markup.mainKeyboard }],
      adminNotices := [], ai_mode := st.ai_mode }
  else if text = kanalS then
    { db := db,
      replies := [{ text := kanalPrefixS ++ tmeS ++ cfg.channel_id.drop 1, markup := Markup.none }],
      adminNotices := [], ai_mode := st.ai_mode }
  else if text = guruhS then
    { db := db,
      replies := [{ text := guruhPrefixS ++ tmeS ++ cfg.group_id.drop 1, markup := Markup.none }],
      adminNotices := [], ai_mode := st.ai_mode }
  else if text = vebSaytS then
    { db := db,
      replies := [{ text := vebPrefixS ++ cfg.website_url, markup := Markup.none }],
      adminNotices := [], ai_mode := st.ai_mode }
  else if st.ai_mode then
    match st.gen with
    | Except.ok r =>
      { db := db, replies := [{ text := r, markup := Markup.none }],
        adminNotices := [], ai_mode := st.ai_mode }
    | Except.error e =>
      { db := db, replies := [{ text := xatoPrefixS ++ e, markup := Markup.none }],
        adminNotices := [], ai_mode := st.ai_mode }
  else
    let mid := nextMotivationId db
    { db := { db with motivations := db.motivations ++
        [{ id := mid, text := text, submitted_by := user_id,
           status := pendingS, schedule_date := none }] },
      replies := [{ text := submittedMsgS, markup := Markup.none }],
      adminNotices := [{ text := newMotivPrefixS ++ text ++ senderPrefixS ++ username,
                         markup := Markup.moderation mid }],
      ai_mode := st.ai_mode }

/-- main.py lines 127-135: the /ai command.  The gate is checked first; on
failure nothing is changed and the join prompt (with the membership keyboard
of join links and a re-check button) is sent; on success `ai_mode` is set. -/
structure AiOut where
  replies : List Reply
  ai_mode : Bool
deriving DecidableEq

def ai_command (channel_status group_status : LookupResult) (ai_mode : Bool) : AiOut :=
  if check_membership channel_status group_status = false then
    { replies := [{ text := aiJoinPromptS, markup := Markup.membershipKeyboard }],
      ai_mode := ai_mode }
  else
    { replies := [{ text := aiStartS, markup := Markup.none }], ai_mode := true }

/-- main.py lines 99-106: `UPDATE users SET is_active = 0 WHERE user_id = ?`. -/
def stop (db : DB) (user_id : Nat) : DB × Reply :=
  let users2 := db.users.map (fun u => if u.user_id = user_id then { u with is_active := false } else u)
  ({ db with users := users2 }, { text := stopMsgS, markup := Markup.none })

/-- main.py lines 78-96: `INSERT OR REPLACE INTO users ... is_active = 1`,
modelled as delete-then-insert of the row with this key. -/
def start_upsert (db : DB) (user_id : Nat) (username : String) : DB :=
  { db with users := (db.users.filter (fun u => !(u.user_id == user_id))) ++
      [{ user_id := user_id, username := username, is_active := true }] }

/-- main.py lines 191-209: the /broadcast command.  Admin gate, argument
check, then one send per active user; each failure is caught and logged and
the loop continues.  The final reply is the fixed string `broadcastDoneS`,
with no counts in it. -/
def broadcast_main (adminIDs : List Nat) (sender : Nat) (args : List String)
    (db : DB) (env : Nat → Bool) : List (Nat × Bool) × Reply :=
  if adminIDs.contains sender = false then
    ([], { text := adminOnlyS, markup := Markup.none })
  else if args.isEmpty then
    ([], { text := usageS, markup := Markup.none })
  else
    let users := (db.users.filter (fun u => u.is_active)).map MUser.user_id
    (users.map (fun u => (u, env u)), { text := broadcastDoneS, markup := Markup.none })

/-! ## Moderation callbacks (main.py `button_callback`, lines 229-274) -/

inductive PyErr
  | nameError (n : String)
  | typeError (m : String)
deriving DecidableEq

inductive CbAction
  | approve (mid : Nat)
  | reject (mid : Nat)
  | scheduleDays (mid : Nat) (days : Nat)
  | like
deriving DecidableEq

/-- `UPDATE motivations SET status = ? WHERE id = ?`. -/
def setStatus (ms : List Motivation) (mid : Nat) (st : String) : List Motivation :=
  ms.map (fun m => if m.id = mid then { m with status := st } else m)

/-- The moderation branches of `button_callback`.  The approve branch updates
the status unconditionally, fetches the text (raising TypeError on a missing
row, before the commit, so the update is then discarded) and fans the text
out to all active users.  The reject branch updates unconditionally.  The
schedule branch evaluates the name `timedelta`, which main.py never imports
(line 7 imports only `datetime` from the datetime module), so it raises
NameError before touching the database. -/
def button_callback_moderation (db : DB) (env : Nat → Bool) (a : CbAction) :
    Except PyErr (DB × List (Nat × Bool)) :=
  match a with
  | CbAction.approve mid =>
    let ms2 := setStatus db.motivations mid approvedS
    match ms2.find? (fun m => m.id == mid) with
    | Option.none => Except.error (PyErr.typeError noneSubS)
    | Option.some _ =>
      let users := (db.users.filter (fun u => u.is_active)).map MUser.user_id
      Except.ok ({ db with motivations := ms2 }, users.map (fun u => (u, env u)))
  | CbAction.reject mid =>
    Except.ok ({ db with motivations := setStatus db.motivations mid rejectedS }, [])
  | CbAction.scheduleDays _ _ =>
    Except.error (PyErr.nameError timedeltaS)
  | CbAction.like => Except.ok (db, [])

/-- The modules imported from `datetime` by main.py line 7. -/
def datetime_imports : List String := [datetimeS]

def statusOf (db : DB) (mid : Nat) : Option String :=
  (db.motivations.find? (fun m => m.id == mid)).map Motivation.status

def resultStatus (r : Except PyErr (DB × List (Nat × Bool))) (mid : Nat) : Option String :=
  match r with
  | Except.ok p => statusOf p.1 mid
  | Except.error _ => Option.none

/-! ## Daily motivation job (main.py lines 280-310) -/

structure Job where
  user_id : Nat
  text : String
deriving DecidableEq

/-- The SQL filter `status = 'approved' AND (schedule_date IS NULL OR
schedule_date = today)`. -/
def eligibleToday (today : String) (m : Motivation) : Bool :=
  decide (m.status = approvedS) &&
    (decide (m.schedule_date = Option.none) || decide (m.schedule_date = Option.some today))

def defaultMot : Motivation :=
  { id := 0, text := "", submitted_by := 0, status := pendingS, schedule_date := none }

/-- main.py lines 280-302.  Selects the eligible pool, and when it is
non-empty performs `random.choice` (index `rng % pool.length`) and enqueues
one `run_once` job per active user.  Each enqueued lambda closes over the
loop variable `user`; `run_once` never runs a job inside the enqueueing
loop, so by the time any job executes the loop has finished and `user`
holds the last element: every job therefore sends to the last active user
(`getLast?`), while `motivation`, bound once before the loop, is stable.
No UPDATE is executed anywhere: the motivations table is returned
unchanged. -/
def send_daily_motivation (db : DB) (today : String) (rng : Nat) : DB × List Job :=
  let pool := db.motivations.filter (eligibleToday today)
  if pool.isEmpty then (db, [])
  else
    let motivation := (pool.getD (rng % pool.length) defaultMot).text
    let activeUsers := db.users.filter (fun u => u.is_active)
    match activeUsers.getLast? with
    | Option.none => (db, [])
    | Option.some last =>
      (db, activeUsers.map (fun _ => { user_id := last.user_id, text := motivation }))

/-- A python expression, as far as the scheduler wiring needs: a bare name
reference or a zero-argument call. -/
inductive PyExpr
  | nameRef (s : String)
  | callNoArgs (f : PyExpr)
deriving DecidableEq

/-- Effects of evaluating a job body.  A bare name evaluates to the function
object and performs nothing.  A zero-argument call of
`send_daily_motivation` would raise TypeError (the function requires the
`context` argument), still delivering nothing. -/
def run_job_body : PyExpr → DB → String → Nat → DB × List Job × Option PyErr
  | PyExpr.nameRef _, db, _, _ => (db, [], Option.none)
  | PyExpr.callNoArgs (PyExpr.nameRef s), db, _, _ =>
    if s = sendDailyNameS then (db, [], Option.some (PyErr.typeError missingArgS))
    else (db, [], Option.none)
  | PyExpr.callNoArgs _, db, _, _ => (db, [], Option.none)

/-- main.py line 305: `schedule.every().day.at("08:00").do(lambda: send_daily_motivation)`.
The lambda body is the bare name, not a call. -/
def daily_job_body : PyExpr := PyExpr.nameRef sendDailyNameS

/-- One tick of `run_scheduler` firing the registered daily job. -/
def scheduler_tick (db : DB) (today : String) (rng : Nat) : DB × List Job × Option PyErr :=
  run_job_body daily_job_body db today rng

/-! ## Data model and handlers of main_bot_code.py (bot_database.db) -/

structure BUser where
  user_id : Nat
  username : String
  is_admin : Bool
deriving DecidableEq

structure ConversationTurn where
  user_id : Nat
  message : String
  response : String
deriving DecidableEq

structure BotDB where
  users : List BUser
  conversations : List ConversationTurn
deriving DecidableEq

/-- main_bot_code.py lines 113-133: `INSERT OR IGNORE` of the user (the
`last_active` timestamp column is not tracked by the model). -/
def save_user (db : BotDB) (user_id : Nat) (username : String) : BotDB :=
  if (db.users.map BUser.user_id).contains user_id then db
  else { db with users := db.users ++
    [{ user_id := user_id, username := username, is_admin := false }] }

/-- main_bot_code.py lines 137-145. -/
def save_conversation (db : BotDB) (user_id : Nat) (message response : String) : BotDB :=
  { db with conversations := db.conversations ++
      [{ user_id := user_id, message := message, response := response }] }

/-- main_bot_code.py lines 203-207: the /stop handler only replies; it reads
or writes no table (the schema has no is_active column at all). -/
def stop_command (db : BotDB) : BotDB × Reply :=
  (db, { text := stopBotS, markup := Markup.none })

/-- main_bot_code.py lines 360-373: the website-link button, gated by
`check_subscription`. -/
def website_link (channel_status group_status : LookupResult) : List Reply :=
  if check_subscription channel_status group_status = false then
    [{ text := joinPromptBotS, markup := Markup.subscriptionKeyboard }]
  else
    [{ text := siteVisitS, markup := Markup.siteButton }]

/-- main_bot_code.py lines 394-431: the catch-all message handler.  It saves
the user, gates on `check_subscription`, skips admin-panel labels, then
relays the text to the completion service; an error there is caught and
answered with the generic localized message, saving no conversation turn. -/
def process_message (channel_status group_status : LookupResult)
    (gen : Except String String) (db : BotDB)
    (user_id : Nat) (username : String) (text : String) : BotDB × List Reply :=
  let db1 := save_user db user_id username
  if check_subscription channel_status group_status = false then
    (db1, [{ text := joinPromptBotS, markup := Markup.subscriptionKeyboard }])
  else if adminLabels.contains text then
    (db1, [])
  else
    match gen with
    | Except.ok r =>
      (save_conversation db1 user_id text r, [{ text := r, markup := Markup.none }])
    | Except.error _ =>
      (db1, [{ text := genericErrS, markup := Markup.none }])

/-- main_bot_code.py lines 295-320: demotion.  Self-demotion and demotion of
an identifier of the static allowlist are rejected without touching the
table; otherwise `UPDATE users SET is_admin = 0 WHERE user_id = ?` runs with
the text parameter, which SQLite converts through the INTEGER affinity of
the column, modelled by `String.toNat?`. -/
def remove_admin_process (adminIDs : List String) (requester_id : Nat)
    (target : String) (db : BotDB) : BotDB × Reply :=
  if toString requester_id = target then
    (db, { text := cantRemoveSelfS, markup := Markup.none })
  else if adminIDs.contains target then
    (db, { text := cantRemoveMainS, markup := Markup.none })
  else
    let users2 := db.users.map (fun u => if target.toNat? = Option.some u.user_id then { u with is_admin := false } else u)
    ({ db with users := users2 }, { text := removedMsg target, markup := Markup.none })

/-! ## Broadcast of main_bot_code.py (lines 330-357) -/

structure BroadcastOut where
  attempts : List (Nat × Bool)
  sent_count : Nat
  error_count : Nat
deriving DecidableEq

/-- The loop body of `broadcast_message`: one send attempt, incrementing
`sent_count` on success and `error_count` on a caught failure. -/
def bmStep (env : Nat → Bool) (acc : List (Nat × Bool) × Nat × Nat) (u : Nat) :
    List (Nat × Bool) × Nat × Nat :=
  if env u then (acc.1 ++ [(u, true)], acc.2.1 + 1, acc.2.2)
  else (acc.1 ++ [(u, false)], acc.2.1, acc.2.2 + 1)

/-- main_bot_code.py lines 330-357: iterates all users of the table and
reports both counters. -/
def broadcast_message (db : BotDB) (env : Nat → Bool) : BroadcastOut :=
  let users := db.users.map BUser.user_id
  let r := users.foldl (bmStep env) ([], 0, 0)
  { attempts := r.1, sent_count := r.2.1, error_count := r.2.2 }

/-- The final report message interpolating both counters. -/
def broadcastSummaryMsg (b : BroadcastOut) : String :=
  finishedS ++ toString b.sent_count ++ errorPartS ++ toString b.error_count

def sentCount (l : List (Nat × Bool)) : Nat := l.countP (fun p => p.2)

def failedCount (l : List (Nat × Bool)) : Nat := l.countP (fun p => !p.2)

/-! ## Concrete test fixtures -/

def userS : String := "aziz"

def salomS : String := "salom"

def savolS : String := "savol"

def motTextS : String := "Oldinga yur"

def todayS : String := "2026-10-12"

def chS : String := "@Kanal1"

def grS : String := "@Guruh1"

def siteS : String := "https://site.example"

def helloS : String := "Salom hammaga"

def okRespS : String := "javob"

def netErrS : String := "Bad Gateway"

def errAS : String := "quota exceeded"

def errBS : String := "timeout"

def oneS : String := "1"

def twoSelfS : String := "2"

def threeS : String := "3"

def cfg0 : MainConfig := { channel_id := chS, group_id := grS, website_url := siteS }

def msgCtx0 : MsgCtx := { ai_mode := false, gen := Except.ok okRespS }

def chErrL : LookupResult := Except.error netErrS

def chOkL : LookupResult := Except.ok memberS

def envAllOk : Nat → Bool := fun _ => true

def envAllFail : Nat → Bool := fun _ => false

def db0 : DB := { users := [], motivations := [] }

def db3 : DB :=
  { users := [{ user_id := 1, username := userS, is_active := true },
              { user_id := 2, username := userS, is_active := true },
              { user_id := 3, username := userS, is_active := true }],
    motivations := [] }

def db7 : DB := { users := [{ user_id := 1, username := userS, is_active := true }], motivations := [] }

def db4 : DB :=
  { users := [{ user_id := 5, username := userS, is_active := true },
              { user_id := 6, username := userS, is_active := false }],
    motivations := [{ id := 1, text := motTextS, submitted_by := 9,
                      status := approvedS, schedule_date := none }] }

def dbApproved1 : DB :=
  { users := [],
    motivations := [{ id := 1, text := motTextS, submitted_by := 9,
                      status := approvedS, schedule_date := none }] }

def db5 : DB :=
  { users := [{ user_id := 5, username := userS, is_active := true },
              { user_id := 8, username := userS, is_active := true }],
    motivations := [{ id := 1, text := motTextS, submitted_by := 9,
                      status := approvedS, schedule_date := none }] }

def botDb0 : BotDB := { users := [], conversations := [] }

def db9 : BotDB :=
  { users := [{ user_id := 3, username := userS, is_admin := true },
              { user_id := 4, username := userS, is_admin := true }],
    conversations := [] }

def adminIDs1 : List String := [oneS]

def adminIDs0 : List Nat := [42]

def args0 : List String := [helloS]

/-! ## Helper lemmas -/

theorem setStatus_all_bool (ms : List Motivation) (mid : Nat) (st : String) :
    (setStatus ms mid st).all (fun m => if m.id = mid then decide (m.status = st) else true) = true := by
  induction ms with
  | nil => rfl
  | cons a as ih =>
    by_cases h : a.id = mid
    · simpa [setStatus, h] using ih
    · simpa [setStatus, h] using ih

theorem setStatus_find_isSome (ms : List Motivation) (mid : Nat) (st : String)
    (h : ∃ m ∈ ms, m.id = mid) :
    ((setStatus ms mid st).find? (fun m => m.id == mid)).isSome = true := by
  obtain ⟨m, hm, hid⟩ := h
  refine List.find?_isSome.mpr ⟨if m.id = mid then { m with status := st } else m, ?_, ?_⟩
  · simp only [setStatus]
    exact List.mem_map_of_mem _ hm
  · simp [hid]

/-! ## Claim theorems -/

/-- C2: the membership gate returns true only when both lookups succeed with
an active status, returns false whenever either lookup errors or returns a
non-active status, and, being a total boolean function (the try/except of
the source catches every transport error), never propagates an exception;
both variants implement the same spec-side gate `is_member_spec`. -/
theorem c2_membership_gate (channel_status group_status : LookupResult) :
    check_membership channel_status group_status = is_member_spec channel_status group_status
    ∧ check_subscription channel_status group_status = is_member_spec channel_status group_status := by
  cases channel_status <;> cases group_status <;> exact ⟨rfl, rfl⟩

/-- C8 (code bug): the schedule(n days) moderation callback never completes
the claimed transition: it raises NameError, because `timedelta` is not
among the names main.py imports from the datetime module, and therefore
leaves the stored status and schedule date untouched. -/
theorem c8_schedule_raises (db : DB) (env : Nat → Bool) (mid days : Nat) :
    button_callback_moderation db env (CbAction.scheduleDays mid days)
      = Except.error (PyErr.nameError timedeltaS)
    ∧ datetime_imports.contains timedeltaS = false :=
  ⟨rfl, by decide⟩

/-- C10: the registered timer callback of main.py line 305 is a lambda whose
body is the bare name `send_daily_motivation`; evaluating it yields the
function object without calling it, so a scheduler tick changes nothing and
delivers nothing, while a real invocation of `send_daily_motivation` on a
database with an eligible approved motivation and an active user would
enqueue a delivery. -/
theorem c10_scheduler_never_delivers (db : DB) (today : String) (rng : Nat) :
    scheduler_tick db today rng = (db, [], Option.none)
    ∧ (send_daily_motivation db4 todayS 0).2.isEmpty = false :=
  ⟨rfl, by decide⟩

/-- C1 counterexample: motivation 1 has already transitioned to approved,
yet a subsequent reject action on the same identifier is applied and
overwrites the stored status with rejected, so a second action is neither
rejected nor a no-op. -/
theorem c1_counterexample :
    statusOf dbApproved1 1 = Option.some approvedS
    ∧ resultStatus (button_callback_moderation dbApproved1 envAllOk (CbAction.reject 1)) 1
        = Option.some rejectedS
    ∧ (rejectedS == approvedS) = false := by
  decide

/-- C1 (amended): approve and reject are applied unconditionally, without
checking that the submission is still pending, so a second action on an
already-transitioned identifier overwrites the stored status: reject always
stores rejected, and approve on any stored identifier — whatever its
current status — stores approved again and re-runs the fan-out to all
active users; only the schedule action leaves stored state unchanged, and
only because it always raises NameError (`timedelta` is unimported). -/
theorem c1_amended_unconditional (db : DB) (env : Nat → Bool) (mid days : Nat) :
    button_callback_moderation db env (CbAction.reject mid)
      = Except.ok ({ db with motivations := setStatus db.motivations mid rejectedS }, ([] : List (Nat × Bool)))
    ∧ (setStatus db.motivations mid rejectedS).all
        (fun m => if m.id = mid then decide (m.status = rejectedS) else true) = true
    ∧ ((∃ m ∈ db.motivations, m.id = mid) →
        button_callback_moderation db env (CbAction.approve mid)
          = Except.ok ({ db with motivations := setStatus db.motivations mid approvedS },
              (((db.users.filter (fun u => u.is_active)).map MUser.user_id).map (fun u => (u, env u)))))
    ∧ (setStatus db.motivations mid approvedS).all
        (fun m => if m.id = mid then decide (m.status = approvedS) else true) = true
    ∧ button_callback_moderation db env (CbAction.scheduleDays mid days)
      = Except.error (PyErr.nameError timedeltaS) := by
  refine ⟨rfl, setStatus_all_bool db.motivations mid rejectedS, ?_,
          setStatus_all_bool db.motivations mid approvedS, rfl⟩
  intro h
  have hfind := setStatus_find_isSome db.motivations mid approvedS h
  obtain ⟨m2, hm2⟩ := Option.isSome_iff_exists.mp hfind
  simp [button_callback_moderation, hm2]

/-- Witness for C1 (amended): an approve action on the already-approved
motivation 1 is applied again, overwriting the status with approved and
re-running the (empty) fan-out. -/
theorem c1_witness :
    button_callback_moderation dbApproved1 envAllOk (CbAction.approve 1)
      = Except.ok ({ dbApproved1 with motivations := setStatus dbApproved1.motivations 1 approvedS },
          (((dbApproved1.users.filter (fun u => u.is_active)).map MUser.user_id).map
            (fun u => (u, envAllOk u)))) :=
  (c1_amended_unconditional dbApproved1 envAllOk 1 0).2.2.1 (by decide)

theorem bmStep_foldl (env : Nat → Bool) (users : List Nat) :
    ∀ acc : List (Nat × Bool) × Nat × Nat,
    users.foldl (bmStep env) acc =
      (acc.1 ++ users.map (fun u => (u, env u)),
       acc.2.1 + sentCount (users.map (fun u => (u, env u))),
       acc.2.2 + failedCount (users.map (fun u => (u, env u)))) := by
  induction users with
  | nil => intro acc; simp [sentCount, failedCount]
  | cons u us ih =>
    intro acc
    cases h : env u
    · rw [List.foldl_cons]
      have hstep : bmStep env acc u = (acc.1 ++ [(u, false)], acc.2.1, acc.2.2 + 1) := by
        simp [bmStep, h]
      rw [hstep, ih]
      simp only [Prod.mk.injEq]
      refine ⟨by simp [h], ?_, ?_⟩
      · simp [sentCount, List.countP_cons, h]
      · simp only [List.map_cons, failedCount, List.countP_cons, h]
        simp
        omega
    · rw [List.foldl_cons]
      have hstep : bmStep env acc u = (acc.1 ++ [(u, true)], acc.2.1 + 1, acc.2.2) := by
        simp [bmStep, h]
      rw [hstep, ih]
      simp only [Prod.mk.injEq]
      refine ⟨by simp [h], ?_, ?_⟩
      · simp only [List.map_cons, sentCount, List.countP_cons, h]
        simp
        omega
      · simp [failedCount, List.countP_cons, h]

theorem sent_add_failed (l : List (Nat × Bool)) : sentCount l + failedCount l = l.length := by
  induction l with
  | nil => rfl
  | cons a l ih =>
    simp only [sentCount, failedCount, List.countP_cons, List.length_cons] at ih ⊢
    cases h : a.2 <;> simp [h] <;> omega

/-- C3 counterexample: main.py's /broadcast replies the same fixed
confirmation string whether zero or all three of the three sends fail, so
its reply to the caller cannot report the pair (sent, failed); the two runs
have 0 and 3 failures respectively. -/
theorem c3_counterexample :
    (broadcast_main adminIDs0 42 args0 db3 envAllOk).2
      = (broadcast_main adminIDs0 42 args0 db3 envAllFail).2
    ∧ failedCount (broadcast_main adminIDs0 42 args0 db3 envAllOk).1 = 0
    ∧ failedCount (broadcast_main adminIDs0 42 args0 db3 envAllFail).1 = 3 := by
  decide

/-- C3 (amended): both dispatch loops attempt one send per recipient and
never abort on a failure.  The main_bot_code.py dispatcher counts and
reports sent = N - K and failed = K (interpolated into its summary reply);
the main.py dispatcher attempts all sends but replies only the fixed
confirmation string, reporting no counts. -/
theorem c3_amended (db : BotDB) (env : Nat → Bool) (adminIDs : List Nat)
    (sender : Nat) (args : List String) (mdb : DB) :
    (broadcast_message db env).attempts = db.users.map (fun u => (u.user_id, env u.user_id))
    ∧ (broadcast_message db env).attempts.length = db.users.length
    ∧ (broadcast_message db env).error_count = failedCount (broadcast_message db env).attempts
    ∧ (broadcast_message db env).sent_count
        = (broadcast_message db env).attempts.length - failedCount (broadcast_message db env).attempts
    ∧ broadcastSummaryMsg (broadcast_message db env)
        = finishedS ++ toString (broadcast_message db env).sent_count
            ++ errorPartS ++ toString (broadcast_message db env).error_count
    ∧ (adminIDs.contains sender = true → args.isEmpty = false →
        (broadcast_main adminIDs sender args mdb env).1
          = ((mdb.users.filter (fun u => u.is_active)).map MUser.user_id).map (fun u => (u, env u))
        ∧ (broadcast_main adminIDs sender args mdb env).2
          = { text := broadcastDoneS, markup := Markup.none }) := by
  have hb : broadcast_message db env =
      { attempts := (db.users.map BUser.user_id).map (fun u => (u, env u)),
        sent_count := sentCount ((db.users.map BUser.user_id).map (fun u => (u, env u))),
        error_count := failedCount ((db.users.map BUser.user_id).map (fun u => (u, env u))) } := by
    simp only [broadcast_message]
    rw [bmStep_foldl env (db.users.map BUser.user_id) ([], 0, 0)]
    simp
  refine ⟨?_, ?_, ?_, ?_, rfl, ?_⟩
  · rw [hb]; simp [List.map_map, Function.comp]
  · rw [hb]; simp
  · rw [hb]
  · rw [hb]
    dsimp only
    have := sent_add_failed ((db.users.map BUser.user_id).map (fun u => (u, env u)))
    omega
  · intro h1 h2
    unfold broadcast_main
    rw [h1, h2]
    simp

/-- Witness for C3 (amended) at a concrete admin broadcast call where every
send fails. -/
theorem c3_witness :
    (broadcast_main adminIDs0 42 args0 db3 envAllFail).1
      = ((db3.users.filter (fun u => u.is_active)).map MUser.user_id).map (fun u => (u, envAllFail u))
    ∧ (broadcast_main adminIDs0 42 args0 db3 envAllFail).2
      = { text := broadcastDoneS, markup := Markup.none } :=
  (c3_amended botDb0 envAllFail adminIDs0 42 args0 db3).2.2.2.2.2 (by decide) (by decide)

theorem getD_mod_mem (l : List Motivation) (n : Nat) (d : Motivation) (h : l ≠ []) :
    l.getD (n % l.length) d ∈ l := by
  have hlen : n % l.length < l.length := Nat.mod_lt _ (List.length_pos.mpr h)
  rw [List.getD_eq_getElem?_getD, List.getElem?_eq_getElem hlen]
  exact List.getElem_mem hlen

/-- C4 (code bug): each run of the daily job selects exactly the pool with
status = approved and schedule date absent or equal to today; on an empty
pool it delivers nothing; on a non-empty pool it picks the single pool
element indexed by rng modulo the pool size (random.choice, uniform when
rng is uniform), which belongs to the pool, and the motivations table is
returned unchanged, so the eligible pool — in particular any approved
unscheduled item — is the same on every subsequent day.  But the delivery
itself is wrong: one run_once job is enqueued per active user, yet every
enqueued lambda closes over the loop variable, so all jobs carry the last
active user as recipient instead of one message to each active user; at
the failing input db5 (two active users 5 and 8, one eligible motivation)
both jobs target user 8 and user 5 receives nothing. -/
theorem c4_daily_job (db : DB) (today : String) (rng : Nat) :
    (send_daily_motivation db today rng).1 = db
    ∧ (db.motivations.filter (eligibleToday today) = [] →
        (send_daily_motivation db today rng).2 = [])
    ∧ (db.motivations.filter (eligibleToday today) ≠ [] →
        (match (db.users.filter (fun u => u.is_active)).getLast? with
         | Option.none => (send_daily_motivation db today rng).2 = []
         | Option.some last =>
            (send_daily_motivation db today rng).2
              = (db.users.filter (fun u => u.is_active)).map
                  (fun _ => { user_id := last.user_id,
                              text := ((db.motivations.filter (eligibleToday today)).getD
                                (rng % (db.motivations.filter (eligibleToday today)).length) defaultMot).text }))
        ∧ ((db.motivations.filter (eligibleToday today)).getD
            (rng % (db.motivations.filter (eligibleToday today)).length) defaultMot)
            ∈ db.motivations.filter (eligibleToday today))
    ∧ (send_daily_motivation db today rng).1.motivations.filter (eligibleToday today)
        = db.motivations.filter (eligibleToday today)
    ∧ (send_daily_motivation db5 todayS 0).2
        = [{ user_id := 8, text := motTextS }, { user_id := 8, text := motTextS }] := by
  have h1 : (send_daily_motivation db today rng).1 = db := by
    unfold send_daily_motivation
    by_cases h : (db.motivations.filter (eligibleToday today)).isEmpty
    · simp [h]
    · simp only [h, Bool.false_eq_true, if_false]
      cases (db.users.filter (fun u => u.is_active)).getLast? <;> simp
  refine ⟨h1, ?_, ?_, by rw [h1], by decide⟩
  · intro h
    unfold send_daily_motivation
    simp [h]
  · intro h
    have hne : (db.motivations.filter (eligibleToday today)).isEmpty = false := by
      simpa [List.isEmpty_eq_false] using h
    refine ⟨?_, getD_mod_mem _ _ _ h⟩
    cases hg : (db.users.filter (fun u => u.is_active)).getLast? with
    | none =>
      unfold send_daily_motivation
      simp [hne, hg]
    | some last =>
      unfold send_daily_motivation
      simp [hne, hg]

/-- Witness for C4 on a concrete database with one approved unscheduled
motivation and one active user. -/
theorem c4_witness :
    (send_daily_motivation db4 todayS 3).1 = db4
    ∧ ((db4.motivations.filter (eligibleToday todayS)).getD
        (3 % (db4.motivations.filter (eligibleToday todayS)).length) defaultMot)
        ∈ db4.motivations.filter (eligibleToday todayS) :=
  ⟨(c4_daily_job db4 todayS 3).1, ((c4_daily_job db4 todayS 3).2.2.1 (by decide)).2⟩

theorem save_user_conversations (db : BotDB) (uid : Nat) (un : String) :
    (save_user db uid un).conversations = db.conversations := by
  unfold save_user
  split <;> rfl

/-- C5 counterexample: for a user whose two membership lookups both fail (so
the gate check_membership is false), main.py still performs the gated
effects: handle_message persists the free text as a pending submission and
acknowledges it instead of sending a join prompt, and the website label
reveals the configured link, because neither path of handle_message calls
the membership gate. -/
theorem c5_counterexample :
    check_membership chErrL chErrL = false
    ∧ (handle_message cfg0 msgCtx0 db0 7 userS salomS).db.motivations
        = [{ id := 1, text := salomS, submitted_by := 7, status := pendingS, schedule_date := none }]
    ∧ (handle_message cfg0 msgCtx0 db0 7 userS salomS).replies
        = [{ text := submittedMsgS, markup := Markup.none }]
    ∧ (handle_message cfg0 msgCtx0 db0 7 userS vebSaytS).replies
        = [{ text := vebPrefixS ++ siteS, markup := Markup.none }] := by
  decide

/-- C5 (amended): AI-relay entry in main.py and the website reveal and
free-text relay in main_bot_code.py are gated as claimed: on a false gate
they perform no effect (ai_mode unchanged, no conversation persisted) and
reply with the join prompt carrying the join-links-plus-re-check keyboard.
But main.py's website reveal and free-text submission are not gated:
handle_message takes no membership input at all and persists a pending
submission for any sender. -/
theorem c5_amended (channel_status group_status : LookupResult) (mode : Bool)
    (gen : Except String String) (bdb : BotDB) (cfg : MainConfig) (st : MsgCtx)
    (db : DB) (uid : Nat) (un text : String) :
    (check_membership channel_status group_status = false →
      ai_command channel_status group_status mode
        = { replies := [{ text := aiJoinPromptS, markup := Markup.membershipKeyboard }],
            ai_mode := mode })
    ∧ (check_subscription channel_status group_status = false →
      website_link channel_status group_status
        = [{ text := joinPromptBotS, markup := Markup.subscriptionKeyboard }])
    ∧ (check_subscription channel_status group_status = false →
      (process_message channel_status group_status gen bdb uid un text).1.conversations
        = bdb.conversations
      ∧ (process_message channel_status group_status gen bdb uid un text).2
          = [{ text := joinPromptBotS, markup := Markup.subscriptionKeyboard }])
    ∧ (text ≠ yordamS → text ≠ bizHaqimizdaS → text ≠ kanalS → text ≠ guruhS →
       text ≠ vebSaytS → st.ai_mode = false →
      (handle_message cfg st db uid un text).db.motivations
        = db.motivations ++ [{ id := nextMotivationId db, text := text, submitted_by := uid,
                               status := pendingS, schedule_date := none }]
      ∧ (handle_message cfg st db uid un text).replies
        = [{ text := submittedMsgS, markup := Markup.none }]) := by
  refine ⟨?_, ?_, ?_, ?_⟩
  · intro h
    simp [ai_command, h]
  · intro h
    simp [website_link, h]
  · intro h
    refine ⟨?_, ?_⟩ <;> simp [process_message, h, save_user_conversations]
  · intro h1 h2 h3 h4 h5 h6
    refine ⟨?_, ?_⟩ <;> simp [handle_message, h1, h2, h3, h4, h5, h6]

/-- Witness for C5 (amended): both lookups error, concrete free text. -/
theorem c5_witness :
    ai_command chErrL chErrL false
      = { replies := [{ text := aiJoinPromptS, markup := Markup.membershipKeyboard }],
          ai_mode := false }
    ∧ website_link chErrL chErrL = [{ text := joinPromptBotS, markup := Markup.subscriptionKeyboard }]
    ∧ (handle_message cfg0 msgCtx0 db0 7 userS salomS).db.motivations
        = db0.motivations ++ [{ id := nextMotivationId db0, text := salomS, submitted_by := 7,
                                status := pendingS, schedule_date := none }] :=
  ⟨(c5_amended chErrL chErrL false (Except.ok okRespS) botDb0 cfg0 msgCtx0 db0 7 userS salomS).1
     (by decide),
   (c5_amended chErrL chErrL false (Except.ok okRespS) botDb0 cfg0 msgCtx0 db0 7 userS salomS).2.1
     (by decide),
   ((c5_amended chErrL chErrL false (Except.ok okRespS) botDb0 cfg0 msgCtx0 db0 7 userS salomS).2.2.2
     (by decide) (by decide) (by decide) (by decide) (by decide) (by decide)).1⟩

/-- C6 counterexample: in main.py a completion failure in AI mode is
answered with the raw error string appended to the localized prefix — the
reply varies with the raw error text, contradicting the claim that no raw
error text is included; the ai_mode flag is left set. -/
theorem c6_counterexample :
    (handle_message cfg0 { ai_mode := true, gen := Except.error errAS } db0 7 userS savolS).replies
      = [{ text := xatoPrefixS ++ errAS, markup := Markup.none }]
    ∧ (handle_message cfg0 { ai_mode := true, gen := Except.error errBS } db0 7 userS savolS).replies
      = [{ text := xatoPrefixS ++ errBS, markup := Markup.none }]
    ∧ (xatoPrefixS ++ errAS == xatoPrefixS ++ errBS) = false
    ∧ (handle_message cfg0 { ai_mode := true, gen := Except.error errAS } db0 7 userS savolS).ai_mode
      = true := by
  decide

/-- C6 (amended): the completion failure is caught in both variants and
main.py leaves ai_mode set, but only main_bot_code.py replies with the one
generic localized message (and persists no conversation turn); main.py
replies with the raw error string appended to the localized prefix. -/
theorem c6_amended (cfg : MainConfig) (db : DB) (bdb : BotDB)
    (channel_status group_status : LookupResult) (uid : Nat) (un text err : String) :
    (text ≠ yordamS → text ≠ bizHaqimizdaS → text ≠ kanalS → text ≠ guruhS → text ≠ vebSaytS →
      handle_message cfg { ai_mode := true, gen := Except.error err } db uid un text
        = { db := db, replies := [{ text := xatoPrefixS ++ err, markup := Markup.none }],
            adminNotices := [], ai_mode := true })
    ∧ (check_subscription channel_status group_status = true →
       adminLabels.contains text = false →
      (process_message channel_status group_status (Except.error err) bdb uid un text).1.conversations
        = bdb.conversations
      ∧ (process_message channel_status group_status (Except.error err) bdb uid un text).2
        = [{ text := genericErrS, markup := Markup.none }]) := by
  refine ⟨?_, ?_⟩
  · intro h1 h2 h3 h4 h5
    simp [handle_message, h1, h2, h3, h4, h5]
  · intro hs hl
    have hl2 : ¬(text ∈ adminLabels) := by simpa using hl
    refine ⟨?_, ?_⟩ <;> simp [process_message, hs, hl2, save_user_conversations]

/-- Witness for C6 (amended): concrete completion failure for a subscribed
user with a non-label prompt. -/
theorem c6_witness :
    handle_message cfg0 { ai_mode := true, gen := Except.error errAS } db0 7 userS savolS
      = { db := db0, replies := [{ text := xatoPrefixS ++ errAS, markup := Markup.none }],
          adminNotices := [], ai_mode := true }
    ∧ (process_message chOkL chOkL (Except.error errAS) botDb0 7 userS savolS).2
      = [{ text := genericErrS, markup := Markup.none }] :=
  ⟨(c6_amended cfg0 db0 botDb0 chOkL chOkL 7 userS savolS errAS).1
     (by decide) (by decide) (by decide) (by decide) (by decide),
   ((c6_amended cfg0 db0 botDb0 chOkL chOkL 7 userS savolS errAS).2
     (by decide) (by decide)).2⟩

/-- C7 counterexample: after /stop the single user is inactive; a further
plain text message goes through handle_message, which never writes the
users table, so is_active stays false instead of flipping back to true. -/
theorem c7_counterexample :
    (stop db7 1).1.users = [{ user_id := 1, username := userS, is_active := false }]
    ∧ (handle_message cfg0 msgCtx0 (stop db7 1).1 1 userS salomS).db.users
      = [{ user_id := 1, username := userS, is_active := false }] := by
  decide

/-- C7 (amended): in main.py /stop sets the user's is_active flag to false,
but a further inbound text message leaves the users table untouched, so
is_active stays false; only /start, whose upsert writes is_active = 1,
flips the flag back to true.  The main_bot_code.py /stop handler only
replies: that schema has no is_active flag at all. -/
theorem c7_amended (db : DB) (uid : Nat) (cfg : MainConfig) (st : MsgCtx)
    (bdb : BotDB) (un text : String) :
    ((stop db uid).1.users.all (fun u => if u.user_id = uid then !u.is_active else true) = true)
    ∧ (handle_message cfg st db uid un text).db.users = db.users
    ∧ ((start_upsert db uid un).users.all
        (fun u => if u.user_id = uid then u.is_active else true) = true)
    ∧ stop_command bdb = (bdb, { text := stopBotS, markup := Markup.none }) := by
  refine ⟨?_, ?_, ?_, rfl⟩
  · simp only [List.all_eq_true]
    intro u hu
    simp only [stop, List.mem_map] at hu
    obtain ⟨v, hv, rfl⟩ := hu
    by_cases h : v.user_id = uid <;> simp [h]
  · unfold handle_message
    repeat first
      | rfl
      | split
  · simp only [List.all_eq_true]
    intro u hu
    simp only [start_upsert, List.mem_append, List.mem_filter, List.mem_singleton] at hu
    rcases hu with ⟨hv, hne⟩ | rfl
    · have : ¬(u.user_id = uid) := by simpa using hne
      simp [this]
    · simp

/-- C9: a demotion request naming the requester themself, or naming an
identifier present in the static allowlist, is rejected without changing
any user row; otherwise every stored user row the target resolves to gets
is_admin set to false and every other row is unchanged. -/
theorem c9_admin_demotion (adminIDs : List String) (req : Nat) (target : String) (db : BotDB) :
    ((toString req = target ∨ target ∈ adminIDs) →
      (remove_admin_process adminIDs req target db).1 = db)
    ∧ (toString req ≠ target → target ∉ adminIDs →
      (remove_admin_process adminIDs req target db).1.users
        = db.users.map (fun u => if target.toNat? = Option.some u.user_id
            then { u with is_admin := false } else u)
      ∧ (remove_admin_process adminIDs req target db).1.users.all
          (fun u => if target.toNat? = Option.some u.user_id then !u.is_admin else true) = true) := by
  refine ⟨?_, ?_⟩
  · intro h
    by_cases hself : toString req = target
    · simp [remove_admin_process, hself]
    · have hmem : target ∈ adminIDs := h.resolve_left hself
      simp [remove_admin_process, hself, hmem]
  · intro h1 h2
    have husers : (remove_admin_process adminIDs req target db).1.users
        = db.users.map (fun u => if target.toNat? = Option.some u.user_id
            then { u with is_admin := false } else u) := by
      simp [remove_admin_process, h1, h2]
    refine ⟨husers, ?_⟩
    rw [husers, List.all_eq_true]
    intro u hu
    simp only [List.mem_map] at hu
    obtain ⟨v, hv, rfl⟩ := hu
    by_cases h : target.toNat? = Option.some v.user_id <;> simp [h]

/-- Witness for C9: self-demotion is rejected with the table unchanged, and
a legitimate demotion of user 3 clears its is_admin flag. -/
theorem c9_witness :
    (remove_admin_process adminIDs1 2 twoSelfS db9).1 = db9
    ∧ (remove_admin_process adminIDs1 2 threeS db9).1.users.all
        (fun u => if threeS.toNat? = Option.some u.user_id then !u.is_admin else true) = true :=
  ⟨(c9_admin_demotion adminIDs1 2 twoSelfS db9).1 (Or.inl (by decide)),
   ((c9_admin_demotion adminIDs1 2 threeS db9).2 (by decide) (by decide)).2⟩
